import Mathlib

/-!
Shallow embedding of the opencascade.js shared-build helpers
(`src/builds/shared/ocjs_*.cpp`).

The helpers are thin wrappers over an external CAD kernel (OCCT).  The
kernel operations they call are modelled as an oracle structure `Kernel`
whose operations are deterministic but fallible (`Except Err`), mirroring
the fact that any native kernel call may throw a `Standard_Failure`.
Process-wide static configuration (the kernel's `Interface_Static` style
global state) is threaded explicitly as a `Config` value; writer objects
are values of abstract types created from that configuration, exactly as
the C++ constructors read ambient global settings.

Each embedded exporter also records a trace of the kernel operations it
performs, in source order, so that claims about which stages run (and in
which order) are provable rather than merely structural.
-/

/-- Opaque handle to a kernel-owned topological shape (`TopoDS_Shape`). -/
abbrev TopoDS_Shape := Nat

/-- Opaque token for a thrown native failure (the address of a
`Standard_Failure` object, an `intptr_t` at the JS boundary). -/
abbrev Err := Nat

/-- The kernel's `IFSelect_ReturnStatus` enumeration. -/
inductive IFSelect_ReturnStatus : Type
  | RetVoid
  | RetDone
  | RetError
  | RetFail
  | RetStop
deriving DecidableEq, Repr

/-- The kernel's `STEPControl_StepModelType` enumeration: the five transfer
modes accepted by `STEP_WriteToString`. -/
inductive STEPControl_StepModelType : Type
  | AsIs
  | ManifoldSolidBrep
  | FacetedBrep
  | ShellBasedSurfaceModel
  | GeometricCurveSet
deriving DecidableEq, Repr

/-- Trace events: one per kernel operation or sink creation performed by the
embedded exporters, recorded in source order. -/
inductive Event : Type
  | newStepWriter
  | stepTransfer (shape : TopoDS_Shape) (mode : STEPControl_StepModelType)
  | newSink
  | stepWriteStream
  | igesControllerInit
  | newIgesWriter
  | igesAddShape (shape : TopoDS_Shape)
  | igesComputeModel
  | igesWrite (binaryFlag : Bool)
  | brepToolsWrite (shape : TopoDS_Shape)
  | shapeDumpJson (shape : TopoDS_Shape) (depth : Int)
deriving DecidableEq, Repr

/-- Oracle for the external CAD kernel.  `Config` is the process-wide static
configuration; `StepWriter` and `IgesWriter` are the opaque transient writer
states.  Every operation may throw (`Except.error` with an opaque failure
token), since the C++ kernel may raise `Standard_Failure` anywhere.
Write-style operations return the text they append to a fresh, initially
empty output sink. -/
structure Kernel (Config StepWriter IgesWriter : Type) where
  stepWriterNew : Config → Except Err StepWriter
  stepTransfer : StepWriter → TopoDS_Shape → STEPControl_StepModelType →
    Except Err (StepWriter × IFSelect_ReturnStatus)
  stepWriteStream : StepWriter → Except Err (IFSelect_ReturnStatus × String)
  igesControllerInit : Config → Except Err Config
  igesWriterNew : Config → Except Err IgesWriter
  igesAddShape : IgesWriter → TopoDS_Shape → Except Err IgesWriter
  igesComputeModel : IgesWriter → Except Err IgesWriter
  igesWrite : IgesWriter → Bool → Except Err String
  brepToolsWrite : TopoDS_Shape → Except Err String
  shapeDumpJson : TopoDS_Shape → Int → Except Err String

/-- The empty `std::ostringstream` sink contents. -/
def emptySink : String := String.mk []

/-- Embedding of `STEP_WriteToString` (src/builds/shared/ocjs_io_step.cpp):
construct a fresh `STEPControl_Writer`; `Transfer(shape, mode)`; if the
status is not `IFSelect_RetDone` return the empty string; otherwise open a
fresh `std::ostringstream` sink, `WriteStream` into it; if that status is
not `IFSelect_RetDone` return the empty string; otherwise return
`ss.str()`.  The result carries the returned string, the process-wide
configuration after the call, and the trace of kernel operations. -/
def STEP_WriteToString {C SW IW : Type} (K : Kernel C SW IW) (cfg : C)
    (shape : TopoDS_Shape) (mode : STEPControl_StepModelType) :
    Except Err (String × C × List Event) :=
  match K.stepWriterNew cfg with
  | Except.error e => Except.error e
  | Except.ok writer =>
    match K.stepTransfer writer shape mode with
    | Except.error e => Except.error e
    | Except.ok (writer2, status) =>
      if status ≠ IFSelect_ReturnStatus.RetDone then
        Except.ok (emptySink, cfg,
          [Event.newStepWriter, Event.stepTransfer shape mode])
      else
        match K.stepWriteStream writer2 with
        | Except.error e => Except.error e
        | Except.ok (status2, written) =>
          if status2 ≠ IFSelect_ReturnStatus.RetDone then
            Except.ok (emptySink, cfg,
              [Event.newStepWriter, Event.stepTransfer shape mode,
               Event.newSink, Event.stepWriteStream])
          else
            Except.ok (emptySink ++ written, cfg,
              [Event.newStepWriter, Event.stepTransfer shape mode,
               Event.newSink, Event.stepWriteStream])

/-- `STEP_WriteToString` with the defaulted mode argument
(`STEPControl_StepModelType mode = STEPControl_AsIs`). -/
def STEP_WriteToString_default {C SW IW : Type} (K : Kernel C SW IW)
    (cfg : C) (shape : TopoDS_Shape) : Except Err (String × C × List Event) :=
  STEP_WriteToString K cfg shape STEPControl_StepModelType.AsIs

/-- Appending to the empty sink yields exactly the appended text. -/
theorem emptySink_append (s : String) : emptySink ++ s = s := by
  cases s
  rfl

/-- **C1.**  For every kernel, configuration, shape and mode, if the
transfer stage of `STEP_WriteToString` returns normally with a status other
than `RetDone`, the function returns the empty string by normal return
(`Except.ok`, i.e. no exception), and the write stage (`WriteStream`) is
never attempted: it does not occur in the call trace. -/
theorem C1_transfer_fail_returns_empty {C SW IW : Type} (K : Kernel C SW IW)
    (cfg : C) (shape : TopoDS_Shape) (mode : STEPControl_StepModelType)
    (writer writer2 : SW) (status : IFSelect_ReturnStatus)
    (hw : K.stepWriterNew cfg = Except.ok writer)
    (ht : K.stepTransfer writer shape mode = Except.ok (writer2, status))
    (hst : status ≠ IFSelect_ReturnStatus.RetDone) :
    STEP_WriteToString K cfg shape mode =
      Except.ok (emptySink, cfg,
        [Event.newStepWriter, Event.stepTransfer shape mode]) ∧
    Event.stepWriteStream ∉
      [Event.newStepWriter, Event.stepTransfer shape mode] := by
  constructor
  · unfold STEP_WriteToString
    rw [hw]
    dsimp only
    rw [ht]
    dsimp only
    simp [hst]
  · simp

/-- Concrete kernel whose STEP transfer stage always fails with
`RetFail`, all other operations succeeding trivially. -/
def failTransferKernel : Kernel Nat Nat Nat where
  stepWriterNew := fun _ => Except.ok 0
  stepTransfer := fun w _ _ => Except.ok (w, IFSelect_ReturnStatus.RetFail)
  stepWriteStream := fun _ =>
    Except.ok (IFSelect_ReturnStatus.RetDone, emptySink)
  igesControllerInit := fun c => Except.ok c
  igesWriterNew := fun _ => Except.ok 0
  igesAddShape := fun w _ => Except.ok w
  igesComputeModel := fun w => Except.ok w
  igesWrite := fun _ _ => Except.ok emptySink
  brepToolsWrite := fun _ => Except.ok emptySink
  shapeDumpJson := fun _ _ => Except.ok emptySink

/-- Witness for C1 at a concrete kernel, shape and mode. -/
theorem C1_witness :
    STEP_WriteToString failTransferKernel 0 0 STEPControl_StepModelType.AsIs =
      Except.ok (emptySink, 0,
        [Event.newStepWriter,
         Event.stepTransfer 0 STEPControl_StepModelType.AsIs]) ∧
    Event.stepWriteStream ∉
      [Event.newStepWriter,
       Event.stepTransfer 0 STEPControl_StepModelType.AsIs] :=
  C1_transfer_fail_returns_empty failTransferKernel 0 0
    STEPControl_StepModelType.AsIs 0 0 IFSelect_ReturnStatus.RetFail
    rfl rfl (by decide)

/-- Embedding of `IGES_WriteToString` (src/builds/shared/ocjs_io_iges.cpp):
`IGESControl_Controller::Init()` (process-wide, mutates the static
configuration); construct a fresh `IGESControl_Writer` (reads the static
configuration); `AddShape(shape)`; `ComputeModel()`; open a fresh
`std::ostringstream` sink; `Write(ss, Standard_False)`; return `ss.str()`. -/
def IGES_WriteToString {C SW IW : Type} (K : Kernel C SW IW) (cfg : C)
    (shape : TopoDS_Shape) : Except Err (String × C × List Event) :=
  match K.igesControllerInit cfg with
  | Except.error e => Except.error e
  | Except.ok cfg1 =>
    match K.igesWriterNew cfg1 with
    | Except.error e => Except.error e
    | Except.ok w0 =>
      match K.igesAddShape w0 shape with
      | Except.error e => Except.error e
      | Except.ok w1 =>
        match K.igesComputeModel w1 with
        | Except.error e => Except.error e
        | Except.ok w2 =>
          match K.igesWrite w2 false with
          | Except.error e => Except.error e
          | Except.ok written =>
            Except.ok (emptySink ++ written, cfg1,
              [Event.igesControllerInit, Event.newIgesWriter,
               Event.igesAddShape shape, Event.igesComputeModel,
               Event.newSink, Event.igesWrite false])

/-- Embedding of `BRep_WriteToString` (src/builds/shared/ocjs_io_brep.cpp):
open a fresh `std::ostringstream` sink; `BRepTools::Write(shape, ss)`;
return `ss.str()`.  No configuration parameter is read or written. -/
def BRep_WriteToString {C SW IW : Type} (K : Kernel C SW IW)
    (shape : TopoDS_Shape) : Except Err (String × List Event) :=
  match K.brepToolsWrite shape with
  | Except.error e => Except.error e
  | Except.ok written =>
    Except.ok (emptySink ++ written,
      [Event.newSink, Event.brepToolsWrite shape])

/-- Embedding of `Shape_DumpJsonToString`
(src/builds/shared/ocjs_io_dumpjson.cpp): open a fresh
`std::ostringstream` sink; `shape.DumpJson(ss, depth)`; return `ss.str()`.
The depth argument is passed through to the kernel routine unchanged. -/
def Shape_DumpJsonToString {C SW IW : Type} (K : Kernel C SW IW)
    (shape : TopoDS_Shape) (depth : Int) : Except Err (String × List Event) :=
  match K.shapeDumpJson shape depth with
  | Except.error e => Except.error e
  | Except.ok written =>
    Except.ok (emptySink ++ written,
      [Event.newSink, Event.shapeDumpJson shape depth])

/-- `Shape_DumpJsonToString` with the defaulted depth argument
(`Standard_Integer depth = -1`). -/
def Shape_DumpJsonToString_default {C SW IW : Type} (K : Kernel C SW IW)
    (shape : TopoDS_Shape) : Except Err (String × List Event) :=
  Shape_DumpJsonToString K shape (-1)

/-- The native failure record referenced by an exception token: at minimum
its message text and its dynamic type/category name. -/
structure Standard_Failure where
  messageString : String
  dynamicTypeName : String
deriving DecidableEq, Repr

/-- The native exception machinery's store of live failure objects,
indexed by address-like tokens. -/
abbrev FailureHeap := Nat → Standard_Failure

/-- `reinterpret_cast<Standard_Failure*>(exceptionPtr)` is the identity on
the address representation: no check, no read, no allocation. -/
def reinterpretCastFailurePtr (exceptionPtr : Nat) : Nat := exceptionPtr

namespace OCJS

/-- Embedding of `OCJS::getStandard_FailureData`
(src/builds/shared/ocjs_exception.cpp): a single unchecked pointer
reinterpretation of the opaque token, returned normally (`Except.ok`),
with no operation that could raise. -/
def getStandard_FailureData (exceptionPtr : Nat) : Except Err Nat :=
  Except.ok (reinterpretCastFailurePtr exceptionPtr)

end OCJS

/-- Concrete kernel for which every operation succeeds, with
distinguishable output contents. -/
def demoKernel : Kernel Nat Nat Nat where
  stepWriterNew := fun _ => Except.ok 1
  stepTransfer := fun w _ _ => Except.ok (w + 1, IFSelect_ReturnStatus.RetDone)
  stepWriteStream := fun _ =>
    Except.ok (IFSelect_ReturnStatus.RetDone, String.mk ['S', 'T', 'E', 'P'])
  igesControllerInit := fun _ => Except.ok 7
  igesWriterNew := fun c => Except.ok c
  igesAddShape := fun w s => Except.ok (w + s)
  igesComputeModel := fun w => Except.ok (w * 2)
  igesWrite := fun _ _ => Except.ok (String.mk ['I', 'G', 'E', 'S'])
  brepToolsWrite := fun _ => Except.ok (String.mk ['B'])
  shapeDumpJson := fun _ _ => Except.ok (String.mk ['J'])

/-- **C2.**  For every kernel, configuration, shape and mode for which the
transfer stage succeeds (`RetDone`), `STEP_WriteToString` returns the empty
string when the write stage reports a status other than `RetDone`, and
otherwise returns exactly the sink's accumulated content (the text the
write stage streamed into the fresh, initially empty sink). -/
theorem C2_write_stage_result {C SW IW : Type} (K : Kernel C SW IW)
    (cfg : C) (shape : TopoDS_Shape) (mode : STEPControl_StepModelType)
    (writer writer2 : SW) (status2 : IFSelect_ReturnStatus) (written : String)
    (hw : K.stepWriterNew cfg = Except.ok writer)
    (ht : K.stepTransfer writer shape mode =
      Except.ok (writer2, IFSelect_ReturnStatus.RetDone))
    (hws : K.stepWriteStream writer2 = Except.ok (status2, written)) :
    STEP_WriteToString K cfg shape mode =
      Except.ok
        ((if status2 = IFSelect_ReturnStatus.RetDone then written
          else emptySink), cfg,
         [Event.newStepWriter, Event.stepTransfer shape mode,
          Event.newSink, Event.stepWriteStream]) := by
  unfold STEP_WriteToString
  rw [hw]
  dsimp only
  rw [ht]
  dsimp only
  rw [hws]
  dsimp only
  by_cases hs : status2 = IFSelect_ReturnStatus.RetDone
  · simp [hs, emptySink_append]
  · simp [hs]

/-- Witness for C2 at a concrete kernel where the write stage succeeds. -/
theorem C2_witness :
    STEP_WriteToString demoKernel 0 5 STEPControl_StepModelType.AsIs =
      Except.ok
        ((if IFSelect_ReturnStatus.RetDone = IFSelect_ReturnStatus.RetDone
          then String.mk ['S', 'T', 'E', 'P'] else emptySink), 0,
         [Event.newStepWriter,
          Event.stepTransfer 5 STEPControl_StepModelType.AsIs,
          Event.newSink, Event.stepWriteStream]) :=
  C2_write_stage_result demoKernel 0 5 STEPControl_StepModelType.AsIs
    1 2 IFSelect_ReturnStatus.RetDone (String.mk ['S', 'T', 'E', 'P'])
    rfl rfl rfl

/-- **C3.**  For every failure heap and every token, `getStandard_FailureData`
returns normally (never raises), its result is exactly the unchecked
reinterpretation of the token, and the object viewed through the returned
pointer exposes the failure's message text and dynamic type/category. -/
theorem C3_failure_bridge (heap : FailureHeap) (p : Nat) :
    ∃ q, OCJS.getStandard_FailureData p = Except.ok q ∧
      q = reinterpretCastFailurePtr p ∧
      (heap q).messageString = (heap p).messageString ∧
      (heap q).dynamicTypeName = (heap p).dynamicTypeName :=
  ⟨p, rfl, rfl, rfl, rfl⟩

/-- **C4.**  For every kernel, configuration and shape, when each kernel
stage returns normally, `IGES_WriteToString` performs exactly controller
initialization, fresh-writer registration of the shape, model computation
and streaming into a fresh sink, in that order, with the binary flag of the
write step always `false` (text mode); it returns the sink's accumulated
content. -/
theorem C4_iges_pipeline {C SW IW : Type} (K : Kernel C SW IW) (cfg : C)
    (shape : TopoDS_Shape) (cfg1 : C) (w0 w1 w2 : IW) (written : String)
    (h1 : K.igesControllerInit cfg = Except.ok cfg1)
    (h2 : K.igesWriterNew cfg1 = Except.ok w0)
    (h3 : K.igesAddShape w0 shape = Except.ok w1)
    (h4 : K.igesComputeModel w1 = Except.ok w2)
    (h5 : K.igesWrite w2 false = Except.ok written) :
    IGES_WriteToString K cfg shape =
      Except.ok (written, cfg1,
        [Event.igesControllerInit, Event.newIgesWriter,
         Event.igesAddShape shape, Event.igesComputeModel,
         Event.newSink, Event.igesWrite false]) := by
  unfold IGES_WriteToString
  rw [h1]
  dsimp only
  rw [h2]
  dsimp only
  rw [h3]
  dsimp only
  rw [h4]
  dsimp only
  rw [h5]
  dsimp only
  rw [emptySink_append]

/-- Witness for C4 at a concrete kernel and shape. -/
theorem C4_witness :
    IGES_WriteToString demoKernel 3 4 =
      Except.ok (String.mk ['I', 'G', 'E', 'S'], 7,
        [Event.igesControllerInit, Event.newIgesWriter,
         Event.igesAddShape 4, Event.igesComputeModel,
         Event.newSink, Event.igesWrite false]) :=
  C4_iges_pipeline demoKernel 3 4 7 7 11 22 (String.mk ['I', 'G', 'E', 'S'])
    rfl rfl rfl rfl rfl

/-- **C5.**  For every kernel and shape, `BRep_WriteToString` performs a
single stage: it opens a fresh sink, invokes the kernel's native writer on
the shape and the sink, and returns exactly the sink's accumulated content.
Its signature takes no configuration parameter at all. -/
theorem C5_brep_single_stage {C SW IW : Type} (K : Kernel C SW IW)
    (shape : TopoDS_Shape) (written : String)
    (h : K.brepToolsWrite shape = Except.ok written) :
    BRep_WriteToString K shape =
      Except.ok (written, [Event.newSink, Event.brepToolsWrite shape]) := by
  unfold BRep_WriteToString
  rw [h]
  dsimp only
  rw [emptySink_append]

/-- Witness for C5 at a concrete kernel and shape. -/
theorem C5_witness :
    BRep_WriteToString demoKernel 9 =
      Except.ok (String.mk ['B'], [Event.newSink, Event.brepToolsWrite 9]) :=
  C5_brep_single_stage demoKernel 9 (String.mk ['B']) rfl

/-- **C6.**  For every kernel, shape and depth, `Shape_DumpJsonToString`
invokes the shape's structural dump into a fresh sink with the caller's
depth bound passed through, returns exactly the accumulated text, and when
the depth argument is omitted it defaults to the sentinel `-1`. -/
theorem C6_dumpjson_depth {C SW IW : Type} (K : Kernel C SW IW)
    (shape : TopoDS_Shape) (depth : Int) (written : String)
    (h : K.shapeDumpJson shape depth = Except.ok written) :
    Shape_DumpJsonToString K shape depth =
      Except.ok (written,
        [Event.newSink, Event.shapeDumpJson shape depth]) ∧
    Shape_DumpJsonToString_default K shape =
      Shape_DumpJsonToString K shape (-1) := by
  constructor
  · unfold Shape_DumpJsonToString
    rw [h]
    dsimp only
    rw [emptySink_append]
  · rfl

/-- Witness for C6 at a concrete kernel, shape and depth. -/
theorem C6_witness :
    (Shape_DumpJsonToString demoKernel 2 (-1) =
      Except.ok (String.mk ['J'],
        [Event.newSink, Event.shapeDumpJson 2 (-1)]) ∧
    Shape_DumpJsonToString_default demoKernel 2 =
      Shape_DumpJsonToString demoKernel 2 (-1)) :=
  C6_dumpjson_depth demoKernel 2 (-1) (String.mk ['J']) rfl

/-- Inversion for a normal return of `STEP_WriteToString`: the persisted
configuration is exactly the input configuration, and the trace is one of
the two source paths (early return after transfer, or transfer followed by
sink creation and write). -/
theorem STEP_ok_inv {C SW IW : Type} (K : Kernel C SW IW) {cfg : C}
    {shape : TopoDS_Shape} {mode : STEPControl_StepModelType}
    {out : String} {c : C} {tr : List Event}
    (h : STEP_WriteToString K cfg shape mode = Except.ok (out, c, tr)) :
    c = cfg ∧
      (tr = [Event.newStepWriter, Event.stepTransfer shape mode] ∨
       tr = [Event.newStepWriter, Event.stepTransfer shape mode,
             Event.newSink, Event.stepWriteStream]) := by
  unfold STEP_WriteToString at h
  cases hw : K.stepWriterNew cfg with
  | error e => rw [hw] at h; simp at h
  | ok writer =>
    rw [hw] at h
    dsimp only at h
    cases ht : K.stepTransfer writer shape mode with
    | error e => rw [ht] at h; simp at h
    | ok p =>
      rw [ht] at h
      obtain ⟨writer2, status⟩ := p
      dsimp only at h
      by_cases hst : status = IFSelect_ReturnStatus.RetDone
      · rw [if_neg (fun hne => hne hst)] at h
        cases hws : K.stepWriteStream writer2 with
        | error e => rw [hws] at h; simp at h
        | ok q =>
          rw [hws] at h
          obtain ⟨status2, written⟩ := q
          dsimp only at h
          by_cases hs2 : status2 = IFSelect_ReturnStatus.RetDone
          · rw [if_neg (fun hne => hne hs2)] at h
            simp only [Except.ok.injEq, Prod.mk.injEq] at h
            exact ⟨h.2.1.symm, Or.inr h.2.2.symm⟩
          · rw [if_pos hs2] at h
            simp only [Except.ok.injEq, Prod.mk.injEq] at h
            exact ⟨h.2.1.symm, Or.inr h.2.2.symm⟩
      · rw [if_pos hst] at h
        simp only [Except.ok.injEq, Prod.mk.injEq] at h
        exact ⟨h.2.1.symm, Or.inl h.2.2.symm⟩

/-- Inversion for a normal return of `IGES_WriteToString`: every stage
returned normally, the persisted configuration is the controller-init
result, the output is the sink accumulation, and the trace is the full
pipeline in source order. -/
theorem IGES_ok_inv {C SW IW : Type} (K : Kernel C SW IW) {cfg : C}
    {shape : TopoDS_Shape} {out : String} {c : C} {tr : List Event}
    (h : IGES_WriteToString K cfg shape = Except.ok (out, c, tr)) :
    ∃ w0 w1 w2 written,
      K.igesControllerInit cfg = Except.ok c ∧
      K.igesWriterNew c = Except.ok w0 ∧
      K.igesAddShape w0 shape = Except.ok w1 ∧
      K.igesComputeModel w1 = Except.ok w2 ∧
      K.igesWrite w2 false = Except.ok written ∧
      out = emptySink ++ written ∧
      tr = [Event.igesControllerInit, Event.newIgesWriter,
            Event.igesAddShape shape, Event.igesComputeModel,
            Event.newSink, Event.igesWrite false] := by
  unfold IGES_WriteToString at h
  cases h1 : K.igesControllerInit cfg with
  | error e => rw [h1] at h; simp at h
  | ok cfg1 =>
    rw [h1] at h
    dsimp only at h
    cases h2 : K.igesWriterNew cfg1 with
    | error e => rw [h2] at h; simp at h
    | ok w0 =>
      rw [h2] at h
      dsimp only at h
      cases h3 : K.igesAddShape w0 shape with
      | error e => rw [h3] at h; simp at h
      | ok w1 =>
        rw [h3] at h
        dsimp only at h
        cases h4 : K.igesComputeModel w1 with
        | error e => rw [h4] at h; simp at h
        | ok w2 =>
          rw [h4] at h
          dsimp only at h
          cases h5 : K.igesWrite w2 false with
          | error e => rw [h5] at h; simp at h
          | ok written =>
            rw [h5] at h
            dsimp only at h
            simp only [Except.ok.injEq, Prod.mk.injEq] at h
            obtain ⟨ho, hc, htr⟩ := h
            refine ⟨w0, w1, w2, written, ?_, ?_, h3, h4, h5, ho.symm, htr.symm⟩
            · exact congrArg Except.ok hc
            · rw [hc] at h2; exact h2

/-- Forward computation of `IGES_WriteToString` from stage results. -/
theorem IGES_run {C SW IW : Type} (K : Kernel C SW IW) (cfg : C)
    (shape : TopoDS_Shape) (cfg1 : C) (w0 w1 w2 : IW) (written : String)
    (h1 : K.igesControllerInit cfg = Except.ok cfg1)
    (h2 : K.igesWriterNew cfg1 = Except.ok w0)
    (h3 : K.igesAddShape w0 shape = Except.ok w1)
    (h4 : K.igesComputeModel w1 = Except.ok w2)
    (h5 : K.igesWrite w2 false = Except.ok written) :
    IGES_WriteToString K cfg shape =
      Except.ok (emptySink ++ written, cfg1,
        [Event.igesControllerInit, Event.newIgesWriter,
         Event.igesAddShape shape, Event.igesComputeModel,
         Event.newSink, Event.igesWrite false]) := by
  unfold IGES_WriteToString
  rw [h1]
  dsimp only
  rw [h2]
  dsimp only
  rw [h3]
  dsimp only
  rw [h4]
  dsimp only
  rw [h5]

/-- **C7.**  Calling any of the four exporters twice in succession with the
same shape and parameters produces byte-identical results.  The second call
starts from the configuration the first call left behind (`cS`, resp.
`cI`); for the IGES exporter this uses the kernel contract that the
controller initialization is idempotent (`Init` on an already-initialized
configuration leaves it unchanged).  The native and debug exporters read no
configuration, so their repetition is definitionally identical. -/
theorem C7_repeat_idempotent {C SW IW : Type} (K : Kernel C SW IW) (cfg : C)
    (shape : TopoDS_Shape) (mode : STEPControl_StepModelType) (depth : Int)
    (outS : String) (cS : C) (trS : List Event)
    (outI : String) (cI : C) (trI : List Event)
    (hS : STEP_WriteToString K cfg shape mode = Except.ok (outS, cS, trS))
    (hI : IGES_WriteToString K cfg shape = Except.ok (outI, cI, trI))
    (hIdem : K.igesControllerInit cI = Except.ok cI) :
    STEP_WriteToString K cS shape mode = Except.ok (outS, cS, trS) ∧
    IGES_WriteToString K cI shape = Except.ok (outI, cI, trI) ∧
    BRep_WriteToString K shape = BRep_WriteToString K shape ∧
    Shape_DumpJsonToString K shape depth =
      Shape_DumpJsonToString K shape depth := by
  obtain ⟨hcfg, -⟩ := STEP_ok_inv K hS
  obtain ⟨w0, w1, w2, written, g1, g2, g3, g4, g5, ho, htr⟩ := IGES_ok_inv K hI
  refine ⟨?_, ?_, rfl, rfl⟩
  · subst hcfg; exact hS
  · rw [ho, htr]
    exact IGES_run K cI shape cI w0 w1 w2 written hIdem g2 g3 g4 g5

/-- Witness for C7 at a concrete kernel, configuration, shape and mode. -/
theorem C7_witness :
    STEP_WriteToString demoKernel 0 4 STEPControl_StepModelType.AsIs =
      Except.ok (String.mk ['S', 'T', 'E', 'P'], 0,
        [Event.newStepWriter,
         Event.stepTransfer 4 STEPControl_StepModelType.AsIs,
         Event.newSink, Event.stepWriteStream]) ∧
    IGES_WriteToString demoKernel 7 4 =
      Except.ok (String.mk ['I', 'G', 'E', 'S'], 7,
        [Event.igesControllerInit, Event.newIgesWriter,
         Event.igesAddShape 4, Event.igesComputeModel,
         Event.newSink, Event.igesWrite false]) ∧
    BRep_WriteToString demoKernel 4 = BRep_WriteToString demoKernel 4 ∧
    Shape_DumpJsonToString demoKernel 4 0 =
      Shape_DumpJsonToString demoKernel 4 0 :=
  C7_repeat_idempotent demoKernel 0 4 STEPControl_StepModelType.AsIs 0
    (String.mk ['S', 'T', 'E', 'P']) 0
    [Event.newStepWriter,
     Event.stepTransfer 4 STEPControl_StepModelType.AsIs,
     Event.newSink, Event.stepWriteStream]
    (String.mk ['I', 'G', 'E', 'S']) 7
    [Event.igesControllerInit, Event.newIgesWriter,
     Event.igesAddShape 4, Event.igesComputeModel,
     Event.newSink, Event.igesWrite false]
    rfl rfl rfl

/-- **C8.**  Every normal STEP or IGES exporter call constructs exactly one
fresh writer, local to that call (the STEP trace begins with the writer
construction; each trace contains exactly one writer-construction event),
and the only state handed to subsequent calls is the process-wide
configuration: the STEP call returns the input configuration unchanged,
and the IGES call returns exactly the controller-initialization result. -/
theorem C8_fresh_writer_per_call {C SW IW : Type} (K : Kernel C SW IW)
    (cfg : C) (shape : TopoDS_Shape) (mode : STEPControl_StepModelType)
    (outS : String) (cS : C) (trS : List Event)
    (outI : String) (cI : C) (trI : List Event)
    (hS : STEP_WriteToString K cfg shape mode = Except.ok (outS, cS, trS))
    (hI : IGES_WriteToString K cfg shape = Except.ok (outI, cI, trI)) :
    trS.count Event.newStepWriter = 1 ∧
    trS.head? = some Event.newStepWriter ∧
    cS = cfg ∧
    trI.count Event.newIgesWriter = 1 ∧
    K.igesControllerInit cfg = Except.ok cI := by
  obtain ⟨hcfg, htr⟩ := STEP_ok_inv K hS
  obtain ⟨w0, w1, w2, written, g1, -, -, -, -, -, htrI⟩ := IGES_ok_inv K hI
  refine ⟨?_, ?_, hcfg, ?_, g1⟩
  · rcases htr with h | h <;> rw [h] <;> rfl
  · rcases htr with h | h <;> rw [h] <;> rfl
  · rw [htrI]; rfl

/-- Witness for C8 at a concrete kernel, configuration, shape and mode. -/
theorem C8_witness :
    ([Event.newStepWriter,
      Event.stepTransfer 4 STEPControl_StepModelType.AsIs,
      Event.newSink, Event.stepWriteStream].count Event.newStepWriter = 1 ∧
    [Event.newStepWriter,
     Event.stepTransfer 4 STEPControl_StepModelType.AsIs,
     Event.newSink, Event.stepWriteStream].head? =
       some Event.newStepWriter ∧
    (0 : Nat) = 0 ∧
    [Event.igesControllerInit, Event.newIgesWriter,
     Event.igesAddShape 4, Event.igesComputeModel,
     Event.newSink, Event.igesWrite false].count Event.newIgesWriter = 1 ∧
    demoKernel.igesControllerInit 0 = Except.ok 7) :=
  C8_fresh_writer_per_call demoKernel 0 4 STEPControl_StepModelType.AsIs
    (String.mk ['S', 'T', 'E', 'P']) 0
    [Event.newStepWriter,
     Event.stepTransfer 4 STEPControl_StepModelType.AsIs,
     Event.newSink, Event.stepWriteStream]
    (String.mk ['I', 'G', 'E', 'S']) 7
    [Event.igesControllerInit, Event.newIgesWriter,
     Event.igesAddShape 4, Event.igesComputeModel,
     Event.newSink, Event.igesWrite false]
    rfl rfl

/-- **C9.**  When the transfer stage of `STEP_WriteToString` reports a
status other than `RetDone`, the function returns the empty string and the
trace contains neither a sink creation nor a write: the failure path
produces no partial output state. -/
theorem C9_transfer_fail_no_sink {C SW IW : Type} (K : Kernel C SW IW)
    (cfg : C) (shape : TopoDS_Shape) (mode : STEPControl_StepModelType)
    (writer writer2 : SW) (status : IFSelect_ReturnStatus)
    (hw : K.stepWriterNew cfg = Except.ok writer)
    (ht : K.stepTransfer writer shape mode = Except.ok (writer2, status))
    (hst : status ≠ IFSelect_ReturnStatus.RetDone) :
    STEP_WriteToString K cfg shape mode =
      Except.ok (emptySink, cfg,
        [Event.newStepWriter, Event.stepTransfer shape mode]) ∧
    Event.newSink ∉ [Event.newStepWriter, Event.stepTransfer shape mode] ∧
    Event.stepWriteStream ∉
      [Event.newStepWriter, Event.stepTransfer shape mode] := by
  refine ⟨?_, by simp, by simp⟩
  unfold STEP_WriteToString
  rw [hw]
  dsimp only
  rw [ht]
  dsimp only
  simp [hst]

/-- Witness for C9 at a concrete kernel, shape and mode. -/
theorem C9_witness :
    STEP_WriteToString failTransferKernel 1 1
        STEPControl_StepModelType.GeometricCurveSet =
      Except.ok (emptySink, 1,
        [Event.newStepWriter,
         Event.stepTransfer 1 STEPControl_StepModelType.GeometricCurveSet]) ∧
    Event.newSink ∉
      [Event.newStepWriter,
       Event.stepTransfer 1 STEPControl_StepModelType.GeometricCurveSet] ∧
    Event.stepWriteStream ∉
      [Event.newStepWriter,
       Event.stepTransfer 1 STEPControl_StepModelType.GeometricCurveSet] :=
  C9_transfer_fail_no_sink failTransferKernel 1 1
    STEPControl_StepModelType.GeometricCurveSet 0 0
    IFSelect_ReturnStatus.RetFail rfl rfl (by decide)

/-- **C10.**  `Shape_DumpJsonToString` performs no validation or clamping
of its depth argument: for every integer depth, including negative values
other than `-1`, the exact value is forwarded to the kernel dump routine
(the trace event records precisely that value) and the routine's output is
returned. -/
theorem C10_depth_forwarded_unclamped {C SW IW : Type} (K : Kernel C SW IW)
    (shape : TopoDS_Shape) (depth : Int) (written : String)
    (h : K.shapeDumpJson shape depth = Except.ok written) :
    Shape_DumpJsonToString K shape depth =
      Except.ok (written,
        [Event.newSink, Event.shapeDumpJson shape depth]) := by
  unfold Shape_DumpJsonToString
  rw [h]
  dsimp only
  rw [emptySink_append]

/-- Witness for C10 at a concrete kernel and a negative depth other than
the `-1` sentinel. -/
theorem C10_witness :
    Shape_DumpJsonToString demoKernel 3 (-5) =
      Except.ok (String.mk ['J'],
        [Event.newSink, Event.shapeDumpJson 3 (-5)]) :=
  C10_depth_forwarded_unclamped demoKernel 3 (-5) (String.mk ['J']) rfl
